import Mathlib

/-!
Shallow embedding of the order-construction and execution-policy core of
`src/bot.py` (a Tradier trading bot): confirmation policy, slippage
adjustment, OCC option-symbol synthesis, order builders, the dual-endpoint
request router with audit logging, and the best-effort Google-Sheets sink.

Modelling conventions:
- Python `float` prices and basis points are modelled as exact rationals `ℚ`.
- Python exceptions are modelled with `Except`; the only exception the core
  raises itself is `RuntimeError` (from the two request routers).
- The HTTP transport and the Google-Sheets sink are external effects; they are
  passed in as explicit oracles (`HTTPResponse`, `SinkState`).
- Every side effect of a call (sheet appends, the HTTP exchange) is recorded in
  an explicit causal trace (`List TraceItem`) in source order.
-/

namespace Sandboxv2

/-! ### Decimal rendering and parsing helpers (model of Python `str`/`int` formatting) -/

/-- Python `str.upper` (ASCII model, kernel-reducible). -/
def pyUpper (s : String) : String := ⟨s.data.map Char.toUpper⟩

/-- Python `str.lower` (ASCII model, kernel-reducible). -/
def pyLower (s : String) : String := ⟨s.data.map Char.toLower⟩

/-- Python `str.startswith` (kernel-reducible). -/
def pyStartsWith (s p : String) : Bool := p.data.isPrefixOf s.data

/-- The character for a decimal digit `d < 10`. -/
def digitChar (d : Nat) : Char := Char.ofNat (48 + d)

/-- Big-endian decimal digit characters of `n`, with explicit fuel
(structurally recursive so that concrete instances reduce). -/
def natDigitsAux : Nat → Nat → List Char
  | 0, _ => []
  | fuel + 1, n => if n = 0 then [] else natDigitsAux fuel (n / 10) ++ [digitChar (n % 10)]

/-- Decimal rendering of a natural number (model of Python `str(n)` for `n ≥ 0`). -/
def natRepr (n : Nat) : String :=
  if n = 0 then "0" else (natDigitsAux (n + 1) n).asString

/-- Value of a big-endian list of decimal digit characters. -/
def parseDigits (cs : List Char) : Nat :=
  cs.foldl (fun a c => 10 * a + (c.toNat - 48)) 0

/-- A run of `m` zero characters. -/
def zeros (m : Nat) : String := ⟨List.replicate m '0'⟩

/-- Python `f"{n:08d}"`: decimal rendering of an integer zero-padded to
(total) width 8, with the sign before the padding. -/
def pyFormat08d (n : Int) : String :=
  if n < 0 then
    let s := natRepr (-n).toNat
    "-" ++ zeros (7 - s.length) ++ s
  else
    let s := natRepr n.toNat
    zeros (8 - s.length) ++ s

/-- Python slice `s[a:b]` (for `a ≤ b`). -/
def pySlice (s : String) (a b : Nat) : String := ⟨(s.data.drop a).take (b - a)⟩

/-- Python `round` on an exact rational: round half to even (banker's
rounding), the behavior of built-in `round` with one argument. -/
def pyRound (q : ℚ) : Int :=
  let f := ⌊q⌋
  let r := q - f
  if r < 1 / 2 then f
  else if 1 / 2 < r then f + 1
  else if f % 2 = 0 then f else f + 1

/-! ### Configuration and external-effect oracles -/

/-- The module-level configuration globals of `bot.py` that the core reads:
`REQUIRE_CONFIRM_MARKET_ONLY`, `EXTENDED_LIMIT_SLIPPAGE_BPS`,
`EXTENDED_STOCK_ENABLED`, `TRADE_BASE`, `DATA_BASE`, `TRADIER_SANDBOX_ACCOUNT_ID`. -/
structure Ctx where
  requireConfirmMarketOnly : Bool
  extendedLimitSlippageBps : ℚ
  extendedStockEnabled : Bool
  tradeBase : String
  dataBase : String
  tradeAcct : String

/-- Oracle for the Google-Sheets sink: `sheetsOk` models the `_sheets_ok`
global; `outcome k` is the behavior of the k-th worksheet append attempted
during one top-level call (`.ok` means the append succeeded, `.error` means
the gspread call raised an exception). -/
structure SinkState where
  sheetsOk : Bool
  outcome : Nat → Except String Unit

/-- Opaque parsed JSON body of a broker response (`r.json()`); the core
passes it through unmodified, so its internal shape is irrelevant. -/
structure Json where
  raw : String
  deriving DecidableEq, Repr

/-- One HTTP response from the transport: status code, raw body text
(`r.text`) and parsed body (`r.json()`). -/
structure HTTPResponse where
  status : Nat
  body : String
  js : Json
  deriving DecidableEq, Repr

/-- `requests.Response.ok`: true exactly when the status code is below 400. -/
def HTTPResponse.ok (r : HTTPResponse) : Bool := r.status < 400

/-- Python exceptions raised by the core itself. -/
inductive PyError where
  | runtimeError (msg : String)
  deriving DecidableEq, Repr

/-! ### Payloads, audit events and traces -/

/-- The equity order dict built by `place_equity_order` (`cls` is the
`"class"` key; `class` is a reserved word in Lean). A missing optional key
is `none`. -/
structure EquityPayload where
  cls : String
  symbol : String
  side : String
  quantity : Int
  otype : String
  duration : String
  session : String
  price : Option ℚ
  deriving DecidableEq, Repr

/-- The option order dict built by `place_option_order_by_occ`. -/
structure OptionPayload where
  cls : String
  symbol : String
  option_symbol : String
  side : String
  quantity : Int
  otype : String
  duration : String
  price : Option ℚ
  stop : Option ℚ
  deriving DecidableEq, Repr

/-- A form body handed to a request router (`data=` argument). -/
inductive Form where
  | empty
  | equity (p : EquityPayload)
  | option (p : OptionPayload)
  deriving DecidableEq, Repr

/-- The structured payload of an audit event, by emission site. -/
inductive EvPayload where
  | brokerOutData (client endpoint method : String)
      (params : Option (List (String × String)))
  | brokerOutTrade (client endpoint method : String)
      (params : Option (List (String × String))) (data : Form)
  | errIn (status : Nat) (body : String)
  | okIn (js : Json)
  | policyNote (confirmRequired : Bool) (reason : String) (ident : String)
  deriving DecidableEq, Repr

/-- One audit event as handed to `log_event` (timestamps are produced by the
clock, an external effect, and are not modelled). -/
structure AuditEvent where
  kind : String
  direction : String
  actor : String
  channel : Option String
  user : Option String
  payload : EvPayload
  deriving DecidableEq, Repr

/-- One observable side effect of a call, in causal order: an attempted audit
append (with the sink outcome), an attempted trade-log append, or an HTTP
exchange. -/
inductive TraceItem where
  | audit (e : AuditEvent) (sinkOk : Bool)
  | tradeRow (action : String) (symbol : String) (qty : Int) (sinkOk : Bool)
  | http (method : String) (url : String) (resp : HTTPResponse)
  deriving DecidableEq, Repr

/-- Whether a trace item is an HTTP exchange. -/
def isHttpItem : TraceItem → Bool
  | TraceItem.http _ _ _ => true
  | _ => false

/-- Number of HTTP exchanges performed during a call. -/
def httpCount (t : List TraceItem) : Nat := t.countP isHttpItem

/-! ### Google-Sheets sink (best-effort) -/

/-- `_sheet_append_row`: returns `false` when the sink is not initialized;
otherwise attempts the append inside a `try` that catches every exception and
returns `false` (the worksheet-cache and header bookkeeping inside the `try`
block are absorbed into the outcome oracle). It never raises. -/
def _sheet_append_row (snk : SinkState) (k : Nat) : Bool :=
  if ¬snk.sheetsOk then false
  else
    match snk.outcome k with
    | Except.error _ => false
    | Except.ok _ => true

/-- `log_event`: appends one structured event row to the Events tab
(best-effort) and returns the recorded trace item plus the next append index. -/
def log_event (snk : SinkState) (k : Nat) (kind direction actor : String)
    (channel user : Option String) (payload : EvPayload) : TraceItem × Nat :=
  (TraceItem.audit ⟨kind, direction, actor, channel, user, payload⟩
      (_sheet_append_row snk k),
    k + 1)

/-- `log_trade`: appends one row to the Trades tab (best-effort). -/
def log_trade (snk : SinkState) (k : Nat) (action symbol : String) (qty : Int) :
    TraceItem × Nat :=
  (TraceItem.tradeRow action symbol qty (_sheet_append_row snk k), k + 1)

/-! ### Policy and slippage -/

/-- `needs_confirmation` from `bot.py`, reading the
`REQUIRE_CONFIRM_MARKET_ONLY` global out of `ctx`. -/
def needs_confirmation (ctx : Ctx) (order_type : String) (is_conditional : Bool) : Bool :=
  if ¬ctx.requireConfirmMarketOnly then true
  else if is_conditional then false
  else pyLower order_type == "market"

/-- The slippage adjustment applied inline (identically) in both order
builders: `if EXTENDED_LIMIT_SLIPPAGE_BPS: limit = limit * (1 + bps/10000.0)`.
A zero `bps` is falsy in Python, so the multiplication is skipped entirely. -/
def applySlippage (price bps : ℚ) : ℚ :=
  if bps ≠ 0 then price * (1 + bps / 10000) else price

/-! ### Request routers -/

/-- URL formed by `tradier_trade_request`. -/
def tradeUrl (ctx : Ctx) (endpoint : String) : String :=
  ctx.tradeBase ++ (if endpoint.startsWith "/" then endpoint else "/" ++ endpoint)

/-- URL formed by `tradier_data_request`. -/
def dataUrl (ctx : Ctx) (endpoint : String) : String :=
  ctx.dataBase ++ (if endpoint.startsWith "/" then endpoint else "/" ++ endpoint)

/-- `tradier_trade_request`: logs the outbound event, performs exactly one
HTTP exchange, then on a non-ok status logs the inbound error event and raises
`RuntimeError(f"Tradier TRADE {status}: {text}")`; on success logs the parsed
body and returns it unmodified. Returns (trace, next append index, result). -/
def tradier_trade_request (ctx : Ctx) (snk : SinkState) (k : Nat)
    (endpoint method : String) (params : Option (List (String × String)))
    (data : Form) (resp : HTTPResponse) :
    List TraceItem × Nat × Except PyError Json :=
  let (e1, k1) := log_event snk k "broker" "out" "bot" none none
    (EvPayload.brokerOutTrade "TRADE" endpoint method params data)
  if resp.ok then
    let (e2, k2) := log_event snk k1 "broker" "in" "tradier" none none
      (EvPayload.okIn resp.js)
    ([e1, TraceItem.http method (tradeUrl ctx endpoint) resp, e2], k2, Except.ok resp.js)
  else
    let (e2, k2) := log_event snk k1 "broker" "in" "tradier" none none
      (EvPayload.errIn resp.status resp.body)
    ([e1, TraceItem.http method (tradeUrl ctx endpoint) resp, e2], k2,
      Except.error (PyError.runtimeError
        ("Tradier TRADE " ++ toString resp.status ++ ": " ++ resp.body)))

/-- `tradier_data_request`: same shape as the trade router, with the DATA
profile; its outbound audit payload omits the `data` key and its error message
reads `Tradier DATA`. -/
def tradier_data_request (ctx : Ctx) (snk : SinkState) (k : Nat)
    (endpoint method : String) (params : Option (List (String × String)))
    (resp : HTTPResponse) :
    List TraceItem × Nat × Except PyError Json :=
  let (e1, k1) := log_event snk k "broker" "out" "bot" none none
    (EvPayload.brokerOutData "DATA" endpoint method params)
  if resp.ok then
    let (e2, k2) := log_event snk k1 "broker" "in" "tradier" none none
      (EvPayload.okIn resp.js)
    ([e1, TraceItem.http method (dataUrl ctx endpoint) resp, e2], k2, Except.ok resp.js)
  else
    let (e2, k2) := log_event snk k1 "broker" "in" "tradier" none none
      (EvPayload.errIn resp.status resp.body)
    ([e1, TraceItem.http method (dataUrl ctx endpoint) resp, e2], k2,
      Except.error (PyError.runtimeError
        ("Tradier DATA " ++ toString resp.status ++ ": " ++ resp.body)))

/-! ### OCC helpers -/

/-- Index of the first decimal digit of a character list (the
`for i, ch in enumerate(occ)` loop of `_infer_underlying_from_occ`). -/
def firstDigitIdx : List Char → Option Nat
  | [] => none
  | c :: cs => if c.isDigit then some 0 else (firstDigitIdx cs).map (· + 1)

/-- `_infer_underlying_from_occ`: best-effort extraction of the underlying
from an OCC symbol; the (uppercased) part before the first digit, or the first
four characters uppercased when the string has no digit. -/
def _infer_underlying_from_occ (occ : String) : String :=
  match firstDigitIdx occ.data with
  | some i => pyUpper ⟨occ.data.take i⟩
  | none => pyUpper ⟨occ.data.take 4⟩

/-- `build_occ`: OCC synthesis `TICKER ++ YY ++ MM ++ DD ++ C|P ++` 8-digit
zero-padded strike in thousandths, the strike rounded to an integer number of
thousandths with Python `round`. -/
def build_occ (underlying expiry_yyyymmdd cp : String) (strike : ℚ) : String :=
  let yy := pySlice expiry_yyyymmdd 2 4
  let mm := pySlice expiry_yyyymmdd 4 6
  let dd := pySlice expiry_yyyymmdd 6 8
  let cp_code := if pyStartsWith (pyLower cp) "c" then "C" else "P"
  let strike_int : Int := pyRound (strike * 1000)
  pyUpper underlying ++ yy ++ mm ++ dd ++ cp_code ++ pyFormat08d strike_int

/-- Modelled from the spec: the repository has no OCC decoder — §4.1's codec
contract exposes only `encode` (`build_occ`) and `inferUnderlying`, while §3
and §8 state the round-trip `decode(encode(u,e,t,s)) == (u,e,t,s)`. This
decoder parses the canonical fixed-width form of §3 (`TICKER` ++ `YYMMDD` ++
`C|P` ++ 8-digit strike in thousandths), reading the two-digit year as `20YY`.
Outside the canonical form (fewer than 15 characters after the ticker, or a
type code other than `C`/`P`) it returns `none`. -/
def decode_occ (s : String) : Option (String × String × String × ℚ) :=
  let cs := s.data
  let n := cs.length
  if n < 15 then none
  else
    let strikeDigits := cs.drop (n - 8)
    let date := (cs.drop (n - 15)).take 6
    let u : String := ⟨cs.take (n - 15)⟩
    match (cs.drop (n - 9)).take 1 with
    | ['C'] => some (u, "20" ++ (⟨date⟩ : String), "call",
        (parseDigits strikeDigits : ℚ) / 1000)
    | ['P'] => some (u, "20" ++ (⟨date⟩ : String), "put",
        (parseDigits strikeDigits : ℚ) / 1000)
    | _ => none

/-! ### Order builders -/

/-- The outcome of one `place_equity_order` call: the causal trace, the
payload that was handed to the trade router, and the returned value or the
propagated exception. -/
structure EquityRun where
  trace : List TraceItem
  payload : EquityPayload
  result : Except PyError Json
  deriving Repr

/-- The outcome of one `place_option_order_by_occ` call. -/
structure OptionRun where
  trace : List TraceItem
  payload : OptionPayload
  result : Except PyError Json
  deriving Repr

/-- The equity order dict exactly as `place_equity_order` assembles it:
symbol uppercased, type lowercased, session hard-overridden to `"EXT"` when
the extended-hours toggle is on, the `price` key set only for a present limit
price on a `limit`/`stop_limit` type (with slippage applied). -/
def equity_payload (ctx : Ctx) (symbol side : String) (quantity : Int)
    (otype : String) (limit : Option ℚ) (session : String) (duration : String) :
    EquityPayload :=
  { cls := "equity"
    symbol := pyUpper symbol
    side := side
    quantity := quantity
    otype := pyLower otype
    duration := duration
    session := if ctx.extendedStockEnabled then "EXT" else pyUpper session
    price :=
      match limit with
      | some l =>
        if pyLower otype = "limit" ∨ pyLower otype = "stop_limit" then
          some (applySlippage l ctx.extendedLimitSlippageBps)
        else none
      | none => none }

/-- `underlying = (underlying or _infer_underlying_from_occ(occ))`: Python
`or` falls through on `None` and on the (falsy) empty string. -/
def underlying_or_infer (occ : String) (underlying : Option String) : String :=
  match underlying with
  | some u => if u = "" then _infer_underlying_from_occ occ else u
  | none => _infer_underlying_from_occ occ

/-- The option order dict exactly as `place_option_order_by_occ` assembles
it, given the already-resolved underlying `und`: the `price` key set only for
a present limit price on a `limit`/`stop_limit` type (with slippage applied),
the `stop` key set only for a present stop price on a `stop`/`stop_limit`
type (never adjusted). -/
def option_payload (ctx : Ctx) (occ side : String) (qty : Int) (otype : String)
    (limit stop : Option ℚ) (duration : String) (und : String) : OptionPayload :=
  { cls := "option"
    symbol := und
    option_symbol := occ
    side := side
    quantity := qty
    otype := pyLower otype
    duration := duration
    price :=
      match limit with
      | some l =>
        if pyLower otype = "limit" ∨ pyLower otype = "stop_limit" then
          some (applySlippage l ctx.extendedLimitSlippageBps)
        else none
      | none => none
    stop :=
      match stop with
      | some sp => if pyLower otype = "stop" ∨ pyLower otype = "stop_limit" then some sp else none
      | none => none }

/-- `place_equity_order`: logs a passive policy note when confirmation is
required, builds the payload, dispatches it through the trade router, and logs
the trade on success. No validation is performed anywhere. -/
def place_equity_order (ctx : Ctx) (snk : SinkState)
    (symbol side : String) (quantity : Int) (otype : String)
    (limit : Option ℚ) (session : String) (duration : String)
    (is_conditional : Bool) (resp : HTTPResponse) : EquityRun :=
  let (policyTrace, k0) :=
    if needs_confirmation ctx otype is_conditional then
      let (e, k) := log_event snk 0 "policy" "out" "bot" none none
        (EvPayload.policyNote true "market order" symbol)
      ([e], k)
    else ([], 0)
  let payload := equity_payload ctx symbol side quantity otype limit session duration
  let (rt, k1, res) := tradier_trade_request ctx snk k0
    ("/accounts/" ++ ctx.tradeAcct ++ "/orders") "POST" none (Form.equity payload) resp
  match res with
  | Except.ok js =>
    let (e, _) := log_trade snk k1 side symbol quantity
    ⟨policyTrace ++ rt ++ [e], payload, Except.ok js⟩
  | Except.error err => ⟨policyTrace ++ rt, payload, Except.error err⟩

/-- `place_option_order_by_occ`: logs a passive policy note when confirmation
is required, derives the underlying when none is supplied (Python `or`: an
explicit empty string also falls back to inference), builds the payload
(slippage applied to a present limit price on `limit`/`stop_limit` types; the
stop price passed through unadjusted on `stop`/`stop_limit` types), dispatches
it through the trade router, and logs the trade on success. No validation is
performed anywhere. -/
def place_option_order_by_occ (ctx : Ctx) (snk : SinkState)
    (occ side : String) (qty : Int) (otype : String)
    (limit stop : Option ℚ) (duration : String)
    (underlying : Option String) (is_conditional : Bool)
    (resp : HTTPResponse) : OptionRun :=
  let (policyTrace, k0) :=
    if needs_confirmation ctx otype is_conditional then
      let (e, k) := log_event snk 0 "policy" "out" "bot" none none
        (EvPayload.policyNote true "market order" occ)
      ([e], k)
    else ([], 0)
  let und := underlying_or_infer occ underlying
  let payload := option_payload ctx occ side qty otype limit stop duration und
  let (rt, k1, res) := tradier_trade_request ctx snk k0
    ("/accounts/" ++ ctx.tradeAcct ++ "/orders") "POST" none (Form.option payload) resp
  match res with
  | Except.ok js =>
    let (e, _) := log_trade snk k1 side occ qty
    ⟨policyTrace ++ rt ++ [e], payload, Except.ok js⟩
  | Except.error err => ⟨policyTrace ++ rt, payload, Except.error err⟩

/-! ### Concrete fixtures for instance checks -/

/-- A configuration with strict confirmation on and all adjustments off. -/
def ctx0 : Ctx :=
  { requireConfirmMarketOnly := true
    extendedLimitSlippageBps := 0
    extendedStockEnabled := false
    tradeBase := "https://sandbox.tradier.com/v1"
    dataBase := "https://api.tradier.com/v1"
    tradeAcct := "ACCT" }

/-- The same configuration with strict confirmation disabled. -/
def ctxLax : Ctx :=
  { ctx0 with requireConfirmMarketOnly := false }

/-- A fully working sink. -/
def snk0 : SinkState := ⟨true, fun _ => Except.ok ()⟩

/-- A successful broker response. -/
def resp200 : HTTPResponse := ⟨200, "ok", ⟨"order-filled"⟩⟩

/-- A failing broker response. -/
def resp404 : HTTPResponse := ⟨404, "oops", ⟨"error-body"⟩⟩

/-- A configuration like `ctx0` but with the extended-hours toggle enabled. -/
def ctxExt : Ctx := { ctx0 with extendedStockEnabled := true }

/-- A trace with the sink-outcome flags erased: what the core emitted,
independently of whether each best-effort append succeeded. -/
def eraseSinkFlags : List TraceItem → List TraceItem :=
  List.map fun item =>
    match item with
    | TraceItem.audit e _ => TraceItem.audit e true
    | TraceItem.tradeRow a s q _ => TraceItem.tradeRow a s q true
    | TraceItem.http m u r => TraceItem.http m u r

/-! ### Characterization lemmas for the routers and builders -/

theorem tradier_trade_request_of_ok (ctx : Ctx) (snk : SinkState) (k : Nat)
    (endpoint method : String) (params : Option (List (String × String)))
    (data : Form) (resp : HTTPResponse) (h : resp.ok = true) :
    tradier_trade_request ctx snk k endpoint method params data resp =
      ([TraceItem.audit
          ⟨"broker", "out", "bot", none, none,
            EvPayload.brokerOutTrade "TRADE" endpoint method params data⟩
          (_sheet_append_row snk k),
        TraceItem.http method (tradeUrl ctx endpoint) resp,
        TraceItem.audit
          ⟨"broker", "in", "tradier", none, none, EvPayload.okIn resp.js⟩
          (_sheet_append_row snk (k + 1))],
       k + 2, Except.ok resp.js) := by
  simp [tradier_trade_request, log_event, h]

theorem tradier_trade_request_of_err (ctx : Ctx) (snk : SinkState) (k : Nat)
    (endpoint method : String) (params : Option (List (String × String)))
    (data : Form) (resp : HTTPResponse) (h : resp.ok = false) :
    tradier_trade_request ctx snk k endpoint method params data resp =
      ([TraceItem.audit
          ⟨"broker", "out", "bot", none, none,
            EvPayload.brokerOutTrade "TRADE" endpoint method params data⟩
          (_sheet_append_row snk k),
        TraceItem.http method (tradeUrl ctx endpoint) resp,
        TraceItem.audit
          ⟨"broker", "in", "tradier", none, none,
            EvPayload.errIn resp.status resp.body⟩
          (_sheet_append_row snk (k + 1))],
       k + 2,
       Except.error (PyError.runtimeError
         ("Tradier TRADE " ++ toString resp.status ++ ": " ++ resp.body))) := by
  simp [tradier_trade_request, log_event, h]

theorem tradier_data_request_of_err (ctx : Ctx) (snk : SinkState) (k : Nat)
    (endpoint method : String) (params : Option (List (String × String)))
    (resp : HTTPResponse) (h : resp.ok = false) :
    tradier_data_request ctx snk k endpoint method params resp =
      ([TraceItem.audit
          ⟨"broker", "out", "bot", none, none,
            EvPayload.brokerOutData "DATA" endpoint method params⟩
          (_sheet_append_row snk k),
        TraceItem.http method (dataUrl ctx endpoint) resp,
        TraceItem.audit
          ⟨"broker", "in", "tradier", none, none,
            EvPayload.errIn resp.status resp.body⟩
          (_sheet_append_row snk (k + 1))],
       k + 2,
       Except.error (PyError.runtimeError
         ("Tradier DATA " ++ toString resp.status ++ ": " ++ resp.body))) := by
  simp [tradier_data_request, log_event, h]

theorem place_equity_order_payload (ctx : Ctx) (snk : SinkState)
    (symbol side : String) (quantity : Int) (otype : String)
    (limit : Option ℚ) (session duration : String)
    (cond : Bool) (resp : HTTPResponse) :
    (place_equity_order ctx snk symbol side quantity otype limit session duration
        cond resp).payload
      = equity_payload ctx symbol side quantity otype limit session duration := by
  cases h : resp.ok <;> cases hc : needs_confirmation ctx otype cond <;>
    simp [place_equity_order, tradier_trade_request, log_event, log_trade, h, hc]

theorem place_option_order_payload (ctx : Ctx) (snk : SinkState)
    (occ side : String) (qty : Int) (otype : String)
    (limit stop : Option ℚ) (duration : String)
    (underlying : Option String) (cond : Bool) (resp : HTTPResponse) :
    (place_option_order_by_occ ctx snk occ side qty otype limit stop duration
        underlying cond resp).payload
      = option_payload ctx occ side qty otype limit stop duration
          (underlying_or_infer occ underlying) := by
  cases h : resp.ok <;> cases hc : needs_confirmation ctx otype cond <;>
    simp [place_option_order_by_occ, tradier_trade_request, log_event, log_trade, h, hc]

theorem place_equity_order_httpCount (ctx : Ctx) (snk : SinkState)
    (symbol side : String) (quantity : Int) (otype : String)
    (limit : Option ℚ) (session duration : String)
    (cond : Bool) (resp : HTTPResponse) :
    httpCount (place_equity_order ctx snk symbol side quantity otype limit session
        duration cond resp).trace = 1 := by
  cases h : resp.ok <;> cases hc : needs_confirmation ctx otype cond <;>
    simp [place_equity_order, tradier_trade_request, log_event, log_trade, h, hc,
      httpCount, isHttpItem]

theorem place_option_order_httpCount (ctx : Ctx) (snk : SinkState)
    (occ side : String) (qty : Int) (otype : String)
    (limit stop : Option ℚ) (duration : String)
    (underlying : Option String) (cond : Bool) (resp : HTTPResponse) :
    httpCount (place_option_order_by_occ ctx snk occ side qty otype limit stop
        duration underlying cond resp).trace = 1 := by
  cases h : resp.ok <;> cases hc : needs_confirmation ctx otype cond <;>
    simp [place_option_order_by_occ, tradier_trade_request, log_event, log_trade, h, hc,
      httpCount, isHttpItem]

theorem place_equity_order_result (ctx : Ctx) (snk : SinkState)
    (symbol side : String) (quantity : Int) (otype : String)
    (limit : Option ℚ) (session duration : String)
    (cond : Bool) (resp : HTTPResponse) :
    (place_equity_order ctx snk symbol side quantity otype limit session duration
        cond resp).result
      = if resp.ok then Except.ok resp.js
        else Except.error (PyError.runtimeError
          ("Tradier TRADE " ++ toString resp.status ++ ": " ++ resp.body)) := by
  cases h : resp.ok <;> cases hc : needs_confirmation ctx otype cond <;>
    simp [place_equity_order, tradier_trade_request, log_event, log_trade, h, hc]

theorem place_option_order_result (ctx : Ctx) (snk : SinkState)
    (occ side : String) (qty : Int) (otype : String)
    (limit stop : Option ℚ) (duration : String)
    (underlying : Option String) (cond : Bool) (resp : HTTPResponse) :
    (place_option_order_by_occ ctx snk occ side qty otype limit stop duration
        underlying cond resp).result
      = if resp.ok then Except.ok resp.js
        else Except.error (PyError.runtimeError
          ("Tradier TRADE " ++ toString resp.status ++ ": " ++ resp.body)) := by
  cases h : resp.ok <;> cases hc : needs_confirmation ctx otype cond <;>
    simp [place_option_order_by_occ, tradier_trade_request, log_event, log_trade, h, hc]

theorem tradier_data_request_of_ok (ctx : Ctx) (snk : SinkState) (k : Nat)
    (endpoint method : String) (params : Option (List (String × String)))
    (resp : HTTPResponse) (h : resp.ok = true) :
    tradier_data_request ctx snk k endpoint method params resp =
      ([TraceItem.audit
          ⟨"broker", "out", "bot", none, none,
            EvPayload.brokerOutData "DATA" endpoint method params⟩
          (_sheet_append_row snk k),
        TraceItem.http method (dataUrl ctx endpoint) resp,
        TraceItem.audit
          ⟨"broker", "in", "tradier", none, none, EvPayload.okIn resp.js⟩
          (_sheet_append_row snk (k + 1))],
       k + 2, Except.ok resp.js) := by
  simp [tradier_data_request, log_event, h]

/-! ### Claim C2: confirmation policy -/

/-- C2: `needs_confirmation` returns `true` whenever strict mode
(`REQUIRE_CONFIRM_MARKET_ONLY`) is disabled; with strict mode enabled it
returns `false` for every conditional order, and otherwise returns `true`
exactly when the order type is (case-insensitively) `"market"`; in particular
`needs_confirmation` on (`"market"`, not conditional, strict) is `true`, on
(`"market"`, conditional, strict) is `false`, on (`"limit"`, not conditional,
strict) is `false`, and on any type and conditional flag with strict mode
disabled is `true`. -/
theorem needs_confirmation_spec :
    (∀ (ctx : Ctx) (t : String) (c : Bool), ctx.requireConfirmMarketOnly = false →
      needs_confirmation ctx t c = true)
  ∧ (∀ (ctx : Ctx) (t : String), ctx.requireConfirmMarketOnly = true →
      needs_confirmation ctx t true = false)
  ∧ (∀ (ctx : Ctx) (t : String), ctx.requireConfirmMarketOnly = true →
      needs_confirmation ctx t false = (pyLower t == "market"))
  ∧ needs_confirmation ctx0 "market" false = true
  ∧ needs_confirmation ctx0 "market" true = false
  ∧ needs_confirmation ctx0 "limit" false = false
  ∧ (∀ (t : String) (c : Bool), needs_confirmation ctxLax t c = true) := by
  refine ⟨?_, ?_, ?_, ?_, ?_, ?_, ?_⟩
  · intro ctx t c h; simp [needs_confirmation, h]
  · intro ctx t h; simp [needs_confirmation, h]
  · intro ctx t h; simp [needs_confirmation, h]
  · decide
  · decide
  · decide
  · intro t c; simp [needs_confirmation, ctxLax, ctx0]

/-- C2 witness: the universally quantified clauses of
`needs_confirmation_spec` evaluated at concrete inputs. -/
theorem needs_confirmation_spec_witness :
    needs_confirmation ctxLax "stop" true = true
  ∧ needs_confirmation ctx0 "LIMIT" true = false
  ∧ needs_confirmation ctx0 "MaRkEt" false = (pyLower "MaRkEt" == "market") :=
  ⟨needs_confirmation_spec.1 ctxLax "stop" true rfl,
   needs_confirmation_spec.2.1 ctx0 "LIMIT" rfl,
   needs_confirmation_spec.2.2.1 ctx0 "MaRkEt" rfl⟩

/-! ### Claim C3: slippage adjustment -/

/-- C3: the slippage adjustment multiplies a price by `(1 + bps/10000)`; a
zero (or unset, the default being `0`) basis-point setting leaves the price
exactly unchanged; `applySlippage 100 0 = 100` and
`applySlippage 100 50 = 100.50`; in the order builders it is applied exactly
to a present limit price of a `limit`/`stop_limit` order, never to the stop
price, and never to a market order (whose payload has no price field). -/
theorem applySlippage_spec :
    (∀ p bps : ℚ, applySlippage p bps = p * (1 + bps / 10000))
  ∧ (∀ p : ℚ, applySlippage p 0 = p)
  ∧ applySlippage 100 0 = 100
  ∧ applySlippage 100 50 = 100.50
  ∧ (∀ (ctx : Ctx) (snk : SinkState) (symbol side : String) (q : Int) (l : ℚ)
       (sess dur : String) (cond : Bool) (resp : HTTPResponse) (t : String),
      t = "limit" ∨ t = "stop_limit" →
      (place_equity_order ctx snk symbol side q t (some l) sess dur cond
          resp).payload.price = some (applySlippage l ctx.extendedLimitSlippageBps))
  ∧ (∀ (ctx : Ctx) (snk : SinkState) (symbol side : String) (q : Int)
       (l : Option ℚ) (sess dur : String) (cond : Bool) (resp : HTTPResponse),
      (place_equity_order ctx snk symbol side q "market" l sess dur cond
          resp).payload.price = none)
  ∧ (∀ (ctx : Ctx) (snk : SinkState) (occ side : String) (qty : Int) (l : ℚ)
       (stop : Option ℚ) (dur : String) (und : Option String) (cond : Bool)
       (resp : HTTPResponse) (t : String),
      t = "limit" ∨ t = "stop_limit" →
      (place_option_order_by_occ ctx snk occ side qty t (some l) stop dur und cond
          resp).payload.price = some (applySlippage l ctx.extendedLimitSlippageBps))
  ∧ (∀ (ctx : Ctx) (snk : SinkState) (occ side : String) (qty : Int)
       (l stop : Option ℚ) (dur : String) (und : Option String) (cond : Bool)
       (resp : HTTPResponse),
      (place_option_order_by_occ ctx snk occ side qty "market" l stop dur und cond
          resp).payload.price = none)
  ∧ (∀ (ctx : Ctx) (snk : SinkState) (occ side : String) (qty : Int) (t : String)
       (l : Option ℚ) (sp : ℚ) (dur : String) (und : Option String) (cond : Bool)
       (resp : HTTPResponse),
      (place_option_order_by_occ ctx snk occ side qty t l (some sp) dur und cond
          resp).payload.stop = some sp
      ∨ (place_option_order_by_occ ctx snk occ side qty t l (some sp) dur und cond
          resp).payload.stop = none) := by
  have hlim : pyLower "limit" = "limit" := by decide
  have hsl : pyLower "stop_limit" = "stop_limit" := by decide
  have hmkt : pyLower "market" = "market" := by decide
  refine ⟨?_, ?_, ?_, ?_, ?_, ?_, ?_, ?_, ?_⟩
  · intro p bps
    by_cases h : bps = 0 <;> simp [applySlippage, h]
  · intro p; simp [applySlippage]
  · simp [applySlippage]
  · norm_num [applySlippage]
  · rintro ctx snk symbol side q l sess dur cond resp t (rfl | rfl) <;>
      simp [place_equity_order_payload, equity_payload, hlim, hsl]
  · intro ctx snk symbol side q l sess dur cond resp
    cases l <;> simp [place_equity_order_payload, equity_payload, hmkt]
  · rintro ctx snk occ side qty l stop dur und cond resp t (rfl | rfl) <;>
      simp [place_option_order_payload, option_payload, hlim, hsl]
  · intro ctx snk occ side qty l stop dur und cond resp
    cases l <;> simp [place_option_order_payload, option_payload, hmkt]
  · intro ctx snk occ side qty t l sp dur und cond resp
    by_cases h : pyLower t = "stop" ∨ pyLower t = "stop_limit" <;>
      simp [place_option_order_payload, option_payload, h]

/-- C3 witness: the quantified clauses of `applySlippage_spec` at concrete
inputs (50 bps on a 100.00 limit order; a market order with no price). -/
theorem applySlippage_spec_witness :
    (place_equity_order ctxLax snk0 "AMD" "buy" 1 "limit" (some 100) "REG" "day"
        false resp200).payload.price
      = some (applySlippage 100 ctxLax.extendedLimitSlippageBps)
  ∧ (place_equity_order ctxLax snk0 "AMD" "buy" 1 "market" none "REG" "day"
        false resp200).payload.price = none :=
  ⟨applySlippage_spec.2.2.2.2.1 ctxLax snk0 "AMD" "buy" 1 100 "REG" "day" false
      resp200 "limit" (Or.inl rfl),
   applySlippage_spec.2.2.2.2.2.1 ctxLax snk0 "AMD" "buy" 1 none "REG" "day" false
      resp200⟩

/-! ### Claim C5: extended-hours session override -/

/-- C5: when the extended-hours toggle (`EXTENDED_STOCK_ENABLED`) is on, every
equity payload built by `place_equity_order` carries session `"EXT"` (the wire
encoding of the extended session) regardless of the session the caller
requested; when it is off, the caller's requested session (uppercased) is
used. -/
theorem session_override_spec :
    (∀ (ctx : Ctx) (snk : SinkState) (symbol side : String) (q : Int) (t : String)
       (l : Option ℚ) (sess dur : String) (cond : Bool) (resp : HTTPResponse),
      ctx.extendedStockEnabled = true →
      (place_equity_order ctx snk symbol side q t l sess dur cond
          resp).payload.session = "EXT")
  ∧ (∀ (ctx : Ctx) (snk : SinkState) (symbol side : String) (q : Int) (t : String)
       (l : Option ℚ) (sess dur : String) (cond : Bool) (resp : HTTPResponse),
      ctx.extendedStockEnabled = false →
      (place_equity_order ctx snk symbol side q t l sess dur cond
          resp).payload.session = pyUpper sess) := by
  constructor
  · intro ctx snk symbol side q t l sess dur cond resp h
    simp [place_equity_order_payload, equity_payload, h]
  · intro ctx snk symbol side q t l sess dur cond resp h
    simp [place_equity_order_payload, equity_payload, h]

/-- C5 witness: with the toggle on, a caller asking for session `"reg"` still
gets `"EXT"`; with it off, the requested session is used (uppercased). -/
theorem session_override_spec_witness :
    (place_equity_order ctxExt snk0 "SPY" "buy" 1 "market" none "reg" "day" false
        resp200).payload.session = "EXT"
  ∧ (place_equity_order ctx0 snk0 "SPY" "buy" 1 "market" none "reg" "day" false
        resp200).payload.session = pyUpper "reg" :=
  ⟨session_override_spec.1 ctxExt snk0 "SPY" "buy" 1 "market" none "reg" "day"
      false resp200 rfl,
   session_override_spec.2 ctx0 snk0 "SPY" "buy" 1 "market" none "reg" "day"
      false resp200 rfl⟩

/-! ### Claim C9: audit failures never propagate -/

/-- C9: every audit append is best-effort — `_sheet_append_row` catches every
sink exception and merely returns `false` — so the outcome of each core
operation (its returned value or propagated broker error, the payload it
built, and the sequence of events it emitted) is identical under any two sink
behaviors, including a fully unavailable or always-throwing sink: an audit
failure never propagates to the caller and never blocks a trade. -/
theorem audit_best_effort_spec :
    (∀ (ctx : Ctx) (s1 s2 : SinkState) (symbol side : String) (q : Int)
       (t : String) (l : Option ℚ) (sess dur : String) (cond : Bool)
       (resp : HTTPResponse),
      (place_equity_order ctx s1 symbol side q t l sess dur cond resp).result
        = (place_equity_order ctx s2 symbol side q t l sess dur cond resp).result
      ∧ (place_equity_order ctx s1 symbol side q t l sess dur cond resp).payload
        = (place_equity_order ctx s2 symbol side q t l sess dur cond resp).payload
      ∧ eraseSinkFlags
          (place_equity_order ctx s1 symbol side q t l sess dur cond resp).trace
        = eraseSinkFlags
          (place_equity_order ctx s2 symbol side q t l sess dur cond resp).trace)
  ∧ (∀ (ctx : Ctx) (s1 s2 : SinkState) (occ side : String) (qty : Int)
       (t : String) (l st : Option ℚ) (dur : String) (und : Option String)
       (cond : Bool) (resp : HTTPResponse),
      (place_option_order_by_occ ctx s1 occ side qty t l st dur und cond resp).result
        = (place_option_order_by_occ ctx s2 occ side qty t l st dur und cond resp).result
      ∧ (place_option_order_by_occ ctx s1 occ side qty t l st dur und cond resp).payload
        = (place_option_order_by_occ ctx s2 occ side qty t l st dur und cond resp).payload
      ∧ eraseSinkFlags
          (place_option_order_by_occ ctx s1 occ side qty t l st dur und cond resp).trace
        = eraseSinkFlags
          (place_option_order_by_occ ctx s2 occ side qty t l st dur und cond resp).trace)
  ∧ (∀ (ctx : Ctx) (s1 s2 : SinkState) (j1 j2 : Nat) (endpoint method : String)
       (params : Option (List (String × String))) (data : Form)
       (resp : HTTPResponse),
      (tradier_trade_request ctx s1 j1 endpoint method params data resp).2.2
        = (tradier_trade_request ctx s2 j2 endpoint method params data resp).2.2
      ∧ eraseSinkFlags (tradier_trade_request ctx s1 j1 endpoint method params data resp).1
        = eraseSinkFlags (tradier_trade_request ctx s2 j2 endpoint method params data resp).1)
  ∧ (∀ (ctx : Ctx) (s1 s2 : SinkState) (j1 j2 : Nat) (endpoint method : String)
       (params : Option (List (String × String))) (resp : HTTPResponse),
      (tradier_data_request ctx s1 j1 endpoint method params resp).2.2
        = (tradier_data_request ctx s2 j2 endpoint method params resp).2.2
      ∧ eraseSinkFlags (tradier_data_request ctx s1 j1 endpoint method params resp).1
        = eraseSinkFlags (tradier_data_request ctx s2 j2 endpoint method params resp).1) := by
  refine ⟨?_, ?_, ?_, ?_⟩
  · intro ctx s1 s2 symbol side q t l sess dur cond resp
    refine ⟨?_, ?_, ?_⟩
    · rw [place_equity_order_result, place_equity_order_result]
    · rw [place_equity_order_payload, place_equity_order_payload]
    · cases h : resp.ok <;> cases hc : needs_confirmation ctx t cond <;>
        simp [place_equity_order, tradier_trade_request, log_event, log_trade,
          h, hc, eraseSinkFlags]
  · intro ctx s1 s2 occ side qty t l st dur und cond resp
    refine ⟨?_, ?_, ?_⟩
    · rw [place_option_order_result, place_option_order_result]
    · rw [place_option_order_payload, place_option_order_payload]
    · cases h : resp.ok <;> cases hc : needs_confirmation ctx t cond <;>
        simp [place_option_order_by_occ, tradier_trade_request, log_event, log_trade,
          h, hc, eraseSinkFlags]
  · intro ctx s1 s2 j1 j2 endpoint method params data resp
    cases h : resp.ok
    · rw [tradier_trade_request_of_err _ _ _ _ _ _ _ _ h,
        tradier_trade_request_of_err _ _ _ _ _ _ _ _ h]
      exact ⟨rfl, by simp [eraseSinkFlags]⟩
    · rw [tradier_trade_request_of_ok _ _ _ _ _ _ _ _ h,
        tradier_trade_request_of_ok _ _ _ _ _ _ _ _ h]
      exact ⟨rfl, by simp [eraseSinkFlags]⟩
  · intro ctx s1 s2 j1 j2 endpoint method params resp
    cases h : resp.ok
    · rw [tradier_data_request_of_err _ _ _ _ _ _ _ h,
        tradier_data_request_of_err _ _ _ _ _ _ _ h]
      exact ⟨rfl, by simp [eraseSinkFlags]⟩
    · rw [tradier_data_request_of_ok _ _ _ _ _ _ _ h,
        tradier_data_request_of_ok _ _ _ _ _ _ _ h]
      exact ⟨rfl, by simp [eraseSinkFlags]⟩

/-! ### Claim C1: there is no intent validation (corrected) -/

/-- C1 counterexample: an equity market order with quantity 0, and a limit
order with no limit price, are each built and dispatched to the broker
(exactly one HTTP exchange, returning the broker's response) instead of
failing with `InvalidOrderIntent` before any network request, refuting the
claim at these two concrete inputs. -/
theorem no_intent_validation_counterexample :
    (place_equity_order ctx0 snk0 "SPY" "buy" 0 "market" none "REG" "day" false
        resp200).result = Except.ok resp200.js
  ∧ httpCount (place_equity_order ctx0 snk0 "SPY" "buy" 0 "market" none "REG" "day"
        false resp200).trace = 1
  ∧ (place_equity_order ctx0 snk0 "SPY" "buy" 1 "limit" none "REG" "day" false
        resp200).result = Except.ok resp200.js
  ∧ (place_equity_order ctx0 snk0 "SPY" "buy" 1 "limit" none "REG" "day" false
        resp200).payload.price = none
  ∧ httpCount (place_equity_order ctx0 snk0 "SPY" "buy" 1 "limit" none "REG" "day"
        false resp200).trace = 1 :=
  ⟨rfl, rfl, rfl, rfl, rfl⟩

/-- C1 amended: the order builders perform no intent validation at all — for
every input (any quantity, including zero and negative; any order-type string,
known or unknown; with or without price fields) `place_equity_order` and
`place_option_order_by_occ` build a payload and dispatch exactly one network
request; the call returns the broker's response when the HTTP status is a
success and fails only with the propagated broker error otherwise — no
`InvalidOrderIntent` failure path exists in the code. -/
theorem no_intent_validation (ctx : Ctx) (snk : SinkState)
    (symbol side : String) (q : Int) (t : String) (l : Option ℚ)
    (sess dur : String) (cond : Bool)
    (occ oside : String) (qty : Int) (ot : String) (ol ost : Option ℚ)
    (odur : String) (und : Option String) (ocond : Bool)
    (resp : HTTPResponse) :
    httpCount (place_equity_order ctx snk symbol side q t l sess dur cond
        resp).trace = 1
  ∧ (place_equity_order ctx snk symbol side q t l sess dur cond resp).result
      = (if resp.ok then Except.ok resp.js
         else Except.error (PyError.runtimeError
           ("Tradier TRADE " ++ toString resp.status ++ ": " ++ resp.body)))
  ∧ httpCount (place_option_order_by_occ ctx snk occ oside qty ot ol ost odur und
        ocond resp).trace = 1
  ∧ (place_option_order_by_occ ctx snk occ oside qty ot ol ost odur und ocond
        resp).result
      = (if resp.ok then Except.ok resp.js
         else Except.error (PyError.runtimeError
           ("Tradier TRADE " ++ toString resp.status ++ ": " ++ resp.body))) :=
  ⟨place_equity_order_httpCount ctx snk symbol side q t l sess dur cond resp,
   place_equity_order_result ctx snk symbol side q t l sess dur cond resp,
   place_option_order_httpCount ctx snk occ oside qty ot ol ost odur und ocond resp,
   place_option_order_result ctx snk occ oside qty ot ol ost odur und ocond resp⟩

/-! ### Claim C4: router failure behavior -/

/-- C4: on a non-success HTTP status, each router emits the `out` audit event,
performs exactly one HTTP exchange (no retry), then emits an `in` audit event
carrying the status code and the raw body, and only then fails with the broker
error whose message embeds the original status code and the response body text
verbatim. -/
theorem router_error_spec (ctx : Ctx) (snk : SinkState) (k : Nat)
    (endpoint method : String) (params : Option (List (String × String)))
    (data : Form) (resp : HTTPResponse) (h : resp.ok = false) :
    tradier_trade_request ctx snk k endpoint method params data resp =
      ([TraceItem.audit
          ⟨"broker", "out", "bot", none, none,
            EvPayload.brokerOutTrade "TRADE" endpoint method params data⟩
          (_sheet_append_row snk k),
        TraceItem.http method (tradeUrl ctx endpoint) resp,
        TraceItem.audit
          ⟨"broker", "in", "tradier", none, none,
            EvPayload.errIn resp.status resp.body⟩
          (_sheet_append_row snk (k + 1))],
       k + 2,
       Except.error (PyError.runtimeError
         ("Tradier TRADE " ++ toString resp.status ++ ": " ++ resp.body)))
  ∧ (tradier_trade_request ctx snk k endpoint method params data resp).2.2
      = Except.error (PyError.runtimeError
          ("Tradier TRADE " ++ toString resp.status ++ ": " ++ resp.body))
  ∧ httpCount (tradier_trade_request ctx snk k endpoint method params data resp).1 = 1
  ∧ tradier_data_request ctx snk k endpoint method params resp =
      ([TraceItem.audit
          ⟨"broker", "out", "bot", none, none,
            EvPayload.brokerOutData "DATA" endpoint method params⟩
          (_sheet_append_row snk k),
        TraceItem.http method (dataUrl ctx endpoint) resp,
        TraceItem.audit
          ⟨"broker", "in", "tradier", none, none,
            EvPayload.errIn resp.status resp.body⟩
          (_sheet_append_row snk (k + 1))],
       k + 2,
       Except.error (PyError.runtimeError
         ("Tradier DATA " ++ toString resp.status ++ ": " ++ resp.body)))
  ∧ (tradier_data_request ctx snk k endpoint method params resp).2.2
      = Except.error (PyError.runtimeError
          ("Tradier DATA " ++ toString resp.status ++ ": " ++ resp.body))
  ∧ httpCount (tradier_data_request ctx snk k endpoint method params resp).1 = 1 := by
  refine ⟨tradier_trade_request_of_err ctx snk k endpoint method params data resp h,
    ?_, ?_, tradier_data_request_of_err ctx snk k endpoint method params resp h, ?_, ?_⟩
  · rw [tradier_trade_request_of_err ctx snk k endpoint method params data resp h]
  · rw [tradier_trade_request_of_err ctx snk k endpoint method params data resp h]
    simp [httpCount, isHttpItem]
  · rw [tradier_data_request_of_err ctx snk k endpoint method params resp h]
  · rw [tradier_data_request_of_err ctx snk k endpoint method params resp h]
    simp [httpCount, isHttpItem]

/-- C4 witness: a concrete 404 with body `"oops"` satisfies the hypothesis and
yields the broker error carrying the status and the body verbatim. -/
theorem router_error_spec_witness :
    resp404.ok = false
  ∧ (tradier_trade_request ctx0 snk0 0 "/x" "GET" none Form.empty resp404).2.2
      = Except.error (PyError.runtimeError
          ("Tradier TRADE " ++ toString resp404.status ++ ": " ++ resp404.body)) :=
  ⟨rfl, (router_error_spec ctx0 snk0 0 "/x" "GET" none Form.empty resp404 rfl).2.1⟩

/-! ### Claims C8 and C10: underlying inference -/

theorem firstDigitIdx_append (pre : List Char) (c : Char) (post : List Char)
    (hpre : ∀ x ∈ pre, x.isDigit = false) (hc : c.isDigit = true) :
    firstDigitIdx (pre ++ c :: post) = some pre.length := by
  induction pre with
  | nil => simp [firstDigitIdx, hc]
  | cons a l ih =>
    have ha : a.isDigit = false := hpre a (by simp)
    have ih' := ih fun x hx => hpre x (by simp [hx])
    simp [firstDigitIdx, ha, ih']

theorem firstDigitIdx_eq_none (cs : List Char) (h : ∀ x ∈ cs, x.isDigit = false) :
    firstDigitIdx cs = none := by
  induction cs with
  | nil => rfl
  | cons a l ih =>
    have ha : a.isDigit = false := h a (by simp)
    have ih' := ih fun x hx => h x (by simp [hx])
    simp [firstDigitIdx, ha, ih']

/-- C8: `_infer_underlying_from_occ` scans the OCC string left to right and
returns the (uppercased) prefix preceding the first decimal digit — so on a
canonical OCC string, whose ticker prefix is already uppercase, it returns
exactly that prefix; when the string contains no digit at all it returns the
first four characters uppercased; in particular it maps
`"AMD250822C00185000"` to `"AMD"`. -/
theorem infer_underlying_spec :
    (∀ (occ : String) (pre : List Char) (c : Char) (post : List Char),
      occ.data = pre ++ c :: post → (∀ x ∈ pre, x.isDigit = false) →
      c.isDigit = true →
      _infer_underlying_from_occ occ = pyUpper ⟨pre⟩)
  ∧ (∀ (occ : String) (pre : List Char) (c : Char) (post : List Char),
      occ.data = pre ++ c :: post → (∀ x ∈ pre, x.isDigit = false) →
      c.isDigit = true → pyUpper ⟨pre⟩ = (⟨pre⟩ : String) →
      _infer_underlying_from_occ occ = ⟨pre⟩)
  ∧ (∀ occ : String, (∀ x ∈ occ.data, x.isDigit = false) →
      _infer_underlying_from_occ occ = pyUpper ⟨occ.data.take 4⟩)
  ∧ _infer_underlying_from_occ "AMD250822C00185000" = "AMD" := by
  have key : ∀ (occ : String) (pre : List Char) (c : Char) (post : List Char),
      occ.data = pre ++ c :: post → (∀ x ∈ pre, x.isDigit = false) →
      c.isDigit = true → _infer_underlying_from_occ occ = pyUpper ⟨pre⟩ := by
    intro occ pre c post hocc hpre hc
    have h1 : firstDigitIdx occ.data = some pre.length := by
      rw [hocc]; exact firstDigitIdx_append pre c post hpre hc
    have h2 : occ.data.take pre.length = pre := by
      rw [hocc]; exact List.take_left pre (c :: post)
    simp [_infer_underlying_from_occ, h1, h2]
  refine ⟨key, ?_, ?_, ?_⟩
  · intro occ pre c post hocc hpre hc hup
    rw [key occ pre c post hocc hpre hc, hup]
  · intro occ h
    simp [_infer_underlying_from_occ, firstDigitIdx_eq_none occ.data h]
  · decide

/-- C8 witness: the clauses of `infer_underlying_spec` at concrete inputs:
the digit-free prefix of `"AMD250822C00185000"` is `"AMD"`, and a digit-free
string falls back to its first four characters uppercased. -/
theorem infer_underlying_spec_witness :
    _infer_underlying_from_occ "AMD250822C00185000" = ("AMD" : String)
  ∧ _infer_underlying_from_occ "spyxyz" = pyUpper ⟨"spyxyz".data.take 4⟩ :=
  ⟨infer_underlying_spec.2.1 "AMD250822C00185000" "AMD".data '2'
      "50822C00185000".data rfl (by decide) rfl rfl,
   infer_underlying_spec.2.2.1 "spyxyz" (by decide)⟩

/-- C10: on any OCC string whose first character is a decimal digit,
`_infer_underlying_from_occ` returns the empty string, and
`place_option_order_by_occ` called without an explicit underlying then builds
and dispatches (exactly one HTTP exchange) a payload whose `symbol` field is
the empty string, instead of rejecting the intent. -/
theorem occ_leading_digit_spec (ctx : Ctx) (snk : SinkState)
    (occ side : String) (qty : Int) (t : String) (l st : Option ℚ)
    (dur : String) (cond : Bool) (resp : HTTPResponse)
    (c : Char) (cs : List Char) (hocc : occ.data = c :: cs)
    (hc : c.isDigit = true) :
    _infer_underlying_from_occ occ = ""
  ∧ (place_option_order_by_occ ctx snk occ side qty t l st dur none cond
        resp).payload.symbol = ""
  ∧ httpCount (place_option_order_by_occ ctx snk occ side qty t l st dur none cond
        resp).trace = 1 := by
  have h1 : _infer_underlying_from_occ occ = "" := by
    have h0 : firstDigitIdx occ.data = some 0 := by rw [hocc]; simp [firstDigitIdx, hc]
    simp [_infer_underlying_from_occ, h0, pyUpper]
  refine ⟨h1, ?_, place_option_order_httpCount ctx snk occ side qty t l st dur none cond resp⟩
  rw [place_option_order_payload]
  simp [option_payload, underlying_or_infer, h1]

/-- C10 witness: the OCC-like string `"250822C00185000"` (leading digit)
yields an empty inferred underlying and a dispatched payload with an empty
`symbol`. -/
theorem occ_leading_digit_spec_witness :
    _infer_underlying_from_occ "250822C00185000" = ""
  ∧ (place_option_order_by_occ ctx0 snk0 "250822C00185000" "buy_to_open" 1
        "market" none none "day" none false resp200).payload.symbol = ""
  ∧ httpCount (place_option_order_by_occ ctx0 snk0 "250822C00185000" "buy_to_open"
        1 "market" none none "day" none false resp200).trace = 1 :=
  occ_leading_digit_spec ctx0 snk0 "250822C00185000" "buy_to_open" 1 "market"
    none none "day" false resp200 '2' "50822C00185000".data rfl rfl

/-! ### Decimal rendering and parsing: correctness lemmas -/

theorem data_append (a b : String) : (a ++ b).data = a.data ++ b.data := rfl

theorem str_ext (a b : String) (h : a.data = b.data) : a = b := by
  cases a; cases b; exact congrArg String.mk h

theorem parseDigits_append_one (L : List Char) (c : Char) :
    parseDigits (L ++ [c]) = 10 * parseDigits L + (c.toNat - 48) := by
  simp [parseDigits, List.foldl_append]

theorem digitChar_toNat (d : Nat) (h : d < 10) : (digitChar d).toNat = 48 + d := by
  interval_cases d <;> decide

theorem parseDigits_natDigitsAux :
    ∀ fuel n : Nat, n < fuel → parseDigits (natDigitsAux fuel n) = n := by
  intro fuel
  induction fuel with
  | zero => intro n h; exact absurd h (Nat.not_lt_zero n)
  | succ f ih =>
    intro n h
    by_cases h0 : n = 0
    · subst h0; simp [natDigitsAux, parseDigits]
    · rw [natDigitsAux, if_neg h0, parseDigits_append_one]
      have hdiv : n / 10 < f := by
        have := Nat.div_lt_self (Nat.pos_of_ne_zero h0) (by norm_num : 1 < 10)
        omega
      rw [ih (n / 10) hdiv, digitChar_toNat (n % 10) (Nat.mod_lt n (by norm_num))]
      omega

theorem parseDigits_natRepr (n : Nat) : parseDigits (natRepr n).data = n := by
  by_cases h : n = 0
  · subst h; decide
  · have hd : ((natDigitsAux (n + 1) n).asString).data = natDigitsAux (n + 1) n := rfl
    rw [natRepr, if_neg h, hd]
    exact parseDigits_natDigitsAux (n + 1) n (Nat.lt_succ_self n)

theorem parseDigits_zeros_append (m : Nat) (L : List Char) :
    parseDigits (List.replicate m '0' ++ L) = parseDigits L := by
  induction m with
  | zero => rfl
  | succ j ih =>
    have step : (10 * 0 + ('0'.toNat - 48)) = 0 := by decide
    simpa [parseDigits, List.replicate_succ, step] using ih

theorem natDigitsAux_length_le :
    ∀ fuel n d : Nat, n < 10 ^ d → (natDigitsAux fuel n).length ≤ d := by
  intro fuel
  induction fuel with
  | zero => intro n d _; simp [natDigitsAux]
  | succ f ih =>
    intro n d h
    by_cases h0 : n = 0
    · subst h0; simp [natDigitsAux]
    · rw [natDigitsAux, if_neg h0]
      have hd : 1 ≤ d := by
        rcases Nat.eq_zero_or_pos d with rfl | hpos
        · simp at h; omega
        · exact hpos
      have hsplit : 10 ^ d = 10 ^ (d - 1) * 10 := by
        rw [← pow_succ]
        congr 1
        omega
      have hdiv : n / 10 < 10 ^ (d - 1) :=
        Nat.div_lt_of_lt_mul (by omega)
      have := ih (n / 10) (d - 1) hdiv
      simp [List.length_append]
      omega

theorem natRepr_length_le (n d : Nat) (h : n < 10 ^ d) (hd : 1 ≤ d) :
    (natRepr n).length ≤ d := by
  by_cases h0 : n = 0
  · subst h0; simpa [natRepr] using hd
  · rw [natRepr, if_neg h0]
    have : ((natDigitsAux (n + 1) n).asString).length = (natDigitsAux (n + 1) n).length := rfl
    rw [this]
    exact natDigitsAux_length_le (n + 1) n d h

theorem pyFormat08d_spec (n : Int) (h0 : 0 ≤ n) (h8 : n < 10 ^ 8) :
    (pyFormat08d n).data
        = List.replicate (8 - (natRepr n.toNat).length) '0' ++ (natRepr n.toNat).data
    ∧ (pyFormat08d n).data.length = 8
    ∧ parseDigits (pyFormat08d n).data = n.toNat := by
  have hneg : ¬n < 0 := by omega
  have hdata : (pyFormat08d n).data
      = List.replicate (8 - (natRepr n.toNat).length) '0' ++ (natRepr n.toNat).data := by
    rw [pyFormat08d, if_neg hneg, data_append]
    rfl
  have hlen : (natRepr n.toNat).length ≤ 8 := by
    apply natRepr_length_le n.toNat 8 _ (by norm_num)
    omega
  have hlenStr : (natRepr n.toNat).length = (natRepr n.toNat).data.length := rfl
  refine ⟨hdata, ?_, ?_⟩
  · rw [hdata, List.length_append, List.length_replicate]
    omega
  · rw [hdata, parseDigits_zeros_append]
    exact parseDigits_natRepr n.toNat

/-! ### `pyRound` lemmas -/

theorem pyRound_intCast (z : Int) : pyRound ((z : ℚ)) = z := by
  have hf : ⌊(z : ℚ)⌋ = z := Int.floor_intCast z
  simp only [pyRound, hf]
  norm_num

theorem pyRound_nearest (q : ℚ) : |(pyRound q : ℚ) - q| ≤ 1 / 2 := by
  have h0 : (⌊q⌋ : ℚ) ≤ q := Int.floor_le q
  have h1 : q < ⌊q⌋ + 1 := Int.lt_floor_add_one q
  simp only [pyRound]
  split_ifs with h2 h3 h4 <;> rw [abs_le] <;> constructor <;> push_cast <;> linarith

theorem pyRound_eq_add_one_of (q : ℚ) (f : Int) (hle : (f : ℚ) ≤ q)
    (hlt : q < f + 1) (hgt : 1 / 2 < q - f) : pyRound q = f + 1 := by
  have hf : ⌊q⌋ = f := by
    rw [Int.floor_eq_iff]
    exact ⟨hle, hlt⟩
  simp only [pyRound, hf]
  rw [if_neg (by linarith), if_pos hgt]

/-! ### OCC codec: structural lemmas -/

theorem drop_of_append_length (P S : List Char) (m : Nat) (hm : m = P.length) :
    (P ++ S).drop m = S := by
  rw [hm]
  exact List.drop_left P S

theorem take_of_append_length (P S : List Char) (m : Nat) (hm : m = P.length) :
    (P ++ S).take m = P := by
  rw [hm]
  exact List.take_left P S

theorem build_occ_data (u e cp : String) (s : ℚ) :
    (build_occ u e cp s).data
      = (pyUpper u).data
        ++ (((e.data.drop 2).take 2 ++ ((e.data.drop 4).take 2 ++ (e.data.drop 6).take 2))
        ++ ((if pyStartsWith (pyLower cp) "c" then "C" else "P").data
        ++ (pyFormat08d (pyRound (s * 1000))).data)) := by
  simp [build_occ, pySlice, data_append, List.append_assoc]

theorem date_slices (l : List Char) (h : l.length = 8) :
    (l.drop 2).take 2 ++ ((l.drop 4).take 2 ++ (l.drop 6).take 2) = l.drop 2 := by
  rcases l with _ | ⟨c1, _ | ⟨c2, _ | ⟨c3, _ | ⟨c4, _ | ⟨c5, _ | ⟨c6, _ | ⟨c7, _ | ⟨c8, _ | ⟨c9, t⟩⟩⟩⟩⟩⟩⟩⟩⟩ <;>
    simp_all

theorem decode_occ_canonical (U D F : List Char) (cc : Char)
    (hD : D.length = 6) (hF : F.length = 8) (hcc : cc = 'C' ∨ cc = 'P') :
    decode_occ ⟨U ++ (D ++ cc :: F)⟩
      = some (⟨U⟩, "20" ++ (⟨D⟩ : String),
          if cc = 'C' then "call" else "put", (parseDigits F : ℚ) / 1000) := by
  have hlen : (U ++ (D ++ cc :: F)).length = U.length + 15 := by
    simp [List.length_append, hD, hF]
  have hA : (U ++ (D ++ cc :: F)).drop ((U ++ (D ++ cc :: F)).length - 8) = F := by
    have hre : U ++ (D ++ cc :: F) = (U ++ D ++ [cc]) ++ F := by
      simp [List.append_assoc]
    rw [hre]
    apply drop_of_append_length
    rw [hre] at hlen
    simp [List.length_append] at hlen ⊢
    omega
  have hB : ((U ++ (D ++ cc :: F)).drop ((U ++ (D ++ cc :: F)).length - 15)).take 6
      = D := by
    have h1 : (U ++ (D ++ cc :: F)).drop ((U ++ (D ++ cc :: F)).length - 15)
        = D ++ cc :: F := by
      apply drop_of_append_length
      omega
    rw [h1]
    apply take_of_append_length
    omega
  have hC : ((U ++ (D ++ cc :: F)).drop ((U ++ (D ++ cc :: F)).length - 9)).take 1
      = [cc] := by
    have hre : U ++ (D ++ cc :: F) = (U ++ D) ++ cc :: F := by
      simp [List.append_assoc]
    have h1 : (U ++ (D ++ cc :: F)).drop ((U ++ (D ++ cc :: F)).length - 9)
        = cc :: F := by
      rw [hre]
      apply drop_of_append_length
      rw [hre] at hlen
      simp [List.length_append] at hlen ⊢
      omega
    rw [h1]
    rfl
  have hDpart : (U ++ (D ++ cc :: F)).take ((U ++ (D ++ cc :: F)).length - 15) = U := by
    apply take_of_append_length
    omega
  have hdata : (⟨U ++ (D ++ cc :: F)⟩ : String).data = U ++ (D ++ cc :: F) := rfl
  simp only [decode_occ, hdata]
  rw [if_neg (by omega)]
  rw [hA, hB, hC, hDpart]
  rcases hcc with rfl | rfl <;> simp

/-! ### Claim C6: OCC round-trip -/

/-- C6: decoding an encoded OCC symbol recovers underlying, expiry, option
type and strike for every uppercase underlying, eight-digit expiry in the
2000s, option type `call`/`put`, and strike exactly representable in
thousandths of a unit (`k` thousandths, below the eight-digit field bound);
moreover the encoder's strike conversion rounds to the *nearest* thousandth
(within half a thousandth, banker's rounding, via Python `round`) rather than
truncating: a strike of 185.0006 encodes as 185001 thousandths, not 185000. -/
theorem occ_roundtrip_spec :
    (∀ (u e cp : String) (k : Nat),
      pyUpper u = u → e.data.length = 8 → e.data.take 2 = ['2', '0'] →
      (cp = "call" ∨ cp = "put") → k < 10 ^ 8 →
      decode_occ (build_occ u e cp ((k : ℚ) / 1000))
        = some (u, e, cp, (k : ℚ) / 1000))
  ∧ (∀ q : ℚ, |(pyRound q : ℚ) - q| ≤ 1 / 2)
  ∧ pyRound ((185.0006 : ℚ) * 1000) = 185001 := by
  refine ⟨?_, pyRound_nearest, ?_⟩
  · intro u e cp k hu he h20 hcp hk
    have hmul : ((k : ℚ) / 1000) * 1000 = ((k : Int) : ℚ) := by
      push_cast
      field_simp
    have hround : pyRound (((k : ℚ) / 1000) * 1000) = (k : Int) := by
      rw [hmul, pyRound_intCast]
    have hk' : (k : Int) < 10 ^ 8 := by exact_mod_cast hk
    obtain ⟨hF, hFlen, hFparse⟩ :=
      pyFormat08d_spec (k : Int) (by exact_mod_cast Nat.zero_le k) hk'
    have hD6 : (e.data.drop 2).length = 6 := by simp [he]
    have h20' : "20" ++ (⟨e.data.drop 2⟩ : String) = e := by
      apply str_ext
      rw [data_append]
      have : ("20" : String).data = ['2', '0'] := rfl
      rw [this, ← h20]
      exact List.take_append_drop 2 e.data
    have hparse : (parseDigits (pyFormat08d (k : Int)).data : ℚ) = (k : ℚ) := by
      rw [hFparse]
      simp
    rcases hcp with rfl | rfl
    · have hcode : (if pyStartsWith (pyLower "call") "c" then "C" else "P") = "C" := by
        decide
      have hbuild : build_occ u e "call" ((k : ℚ) / 1000)
          = ⟨u.data ++ (e.data.drop 2 ++ 'C' :: (pyFormat08d (k : Int)).data)⟩ := by
        apply str_ext
        rw [build_occ_data, date_slices e.data he, hround, hcode, hu]
        simp
      rw [hbuild, decode_occ_canonical u.data (e.data.drop 2)
        (pyFormat08d (k : Int)).data 'C' hD6 hFlen (Or.inl rfl)]
      have hue : (⟨u.data⟩ : String) = u := rfl
      rw [hue, h20', hparse]
      simp
    · have hcode : (if pyStartsWith (pyLower "put") "c" then "C" else "P") = "P" := by
        decide
      have hbuild : build_occ u e "put" ((k : ℚ) / 1000)
          = ⟨u.data ++ (e.data.drop 2 ++ 'P' :: (pyFormat08d (k : Int)).data)⟩ := by
        apply str_ext
        rw [build_occ_data, date_slices e.data he, hround, hcode, hu]
        simp
      rw [hbuild, decode_occ_canonical u.data (e.data.drop 2)
        (pyFormat08d (k : Int)).data 'P' hD6 hFlen (Or.inr rfl)]
      have hue : (⟨u.data⟩ : String) = u := rfl
      rw [hue, h20', hparse]
      simp
  · have h := pyRound_eq_add_one_of ((185.0006 : ℚ) * 1000) 185000
      (by norm_num) (by norm_num) (by norm_num)
    rw [h]
    norm_num

/-- C6 witness: the round-trip clause of `occ_roundtrip_spec` at the concrete
symbol (AMD, 2025-08-22 call, strike 185.000 = 185000 thousandths). -/
theorem occ_roundtrip_spec_witness :
    decode_occ (build_occ "AMD" "20250822" "call" (((185000 : Nat) : ℚ) / 1000))
      = some ("AMD", "20250822", "call", ((185000 : Nat) : ℚ) / 1000) :=
  occ_roundtrip_spec.1 "AMD" "20250822" "call" 185000 rfl rfl rfl (Or.inl rfl)
    (by norm_num)

/-! ### Claim C7: canonical fixed-width encoding -/

/-- C7: the OCC encoder produces the fixed-width canonical form —
uppercased ticker, then the six expiry digits `YYMMDD`, then `C`/`P`, then an
eight-character zero-padded strike field whose digits read as the strike in
thousandths of a unit; in particular
`build_occ "AMD" "20250822" "call" 185 = "AMD250822C00185000"`. -/
theorem build_occ_canonical_spec :
    build_occ "AMD" "20250822" "call" (185 : ℚ) = "AMD250822C00185000"
  ∧ (∀ (u e cp : String) (k : Nat), e.data.length = 8 →
      (cp = "call" ∨ cp = "put") → k < 10 ^ 8 →
      ∃ strikeField : String,
        strikeField.data.length = 8 ∧ parseDigits strikeField.data = k ∧
        build_occ u e cp ((k : ℚ) / 1000)
          = pyUpper u ++ (⟨e.data.drop 2⟩ : String)
            ++ (if cp = "call" then "C" else "P") ++ strikeField) := by
  constructor
  · have h1 : (185 : ℚ) * 1000 = ((185000 : Int) : ℚ) := by norm_num
    have h2 : pyRound ((185 : ℚ) * 1000) = 185000 := by rw [h1, pyRound_intCast]
    apply str_ext
    rw [build_occ_data, h2]
    decide
  · intro u e cp k he hcp hk
    have hmul : ((k : ℚ) / 1000) * 1000 = ((k : Int) : ℚ) := by
      push_cast
      field_simp
    have hround : pyRound (((k : ℚ) / 1000) * 1000) = (k : Int) := by
      rw [hmul, pyRound_intCast]
    have hk' : (k : Int) < 10 ^ 8 := by exact_mod_cast hk
    obtain ⟨hF, hFlen, hFparse⟩ :=
      pyFormat08d_spec (k : Int) (by exact_mod_cast Nat.zero_le k) hk'
    refine ⟨pyFormat08d (k : Int), hFlen, ?_, ?_⟩
    · rw [hFparse]
      simp
    · apply str_ext
      rw [build_occ_data, date_slices e.data he, hround]
      rcases hcp with rfl | rfl
      · have hcode : (if pyStartsWith (pyLower "call") "c" then "C" else "P") = "C" := by
          decide
        rw [hcode]
        simp [data_append]
      · have hcode : (if pyStartsWith (pyLower "put") "c" then "C" else "P") = "P" := by
          decide
        rw [hcode]
        simp [data_append]

/-- C7 witness: the fixed-width clause of `build_occ_canonical_spec` at a
concrete put (MSFT, 2026-01-16, strike 430.500 = 430500 thousandths). -/
theorem build_occ_canonical_spec_witness :
    ∃ strikeField : String,
      strikeField.data.length = 8 ∧ parseDigits strikeField.data = 430500 ∧
      build_occ "MSFT" "20260116" "put" (((430500 : Nat) : ℚ) / 1000)
        = pyUpper "MSFT" ++ (⟨"20260116".data.drop 2⟩ : String)
          ++ (if ("put" : String) = "call" then "C" else "P") ++ strikeField :=
  build_occ_canonical_spec.2 "MSFT" "20260116" "put" 430500 rfl (Or.inr rfl)
    (by norm_num)

end Sandboxv2
